import Mathlib

/-!
Verification of the galacto black-hole particle simulation (Rust/wgpu).

Shallow embedding conventions:
* `f32` values are modelled as exact rationals (`ℚ`); every arithmetic
  operation of the source is mirrored on `ℚ`.  Rust float literals such as
  `0.033` are written as the rational they denote (`33/1000`).
* `u32` values are modelled as `ℕ` (no operation here comes close to
  overflow: the largest value is the particle count `131072`).
* GPU calls (`queue.write_buffer`, pass recording) are modelled by the host
  state they mirror (`SimulationParams`) and by explicit command lists.
* Field and function names follow `src/` except where the source name is
  not usable verbatim here; the aspect-ratio field of `Camera` is called
  `aspect` (source: the camera aspect-ratio field set by the setter at
  camera.rs line 20).
-/

/-- `SimulationParams` from src/simulation.rs (the `_padding` field carries
no information and is omitted). -/
structure SimulationParams where
  dt : ℚ
  gm : ℚ
  particle_count : ℕ
deriving DecidableEq, Repr

/-- `NUM_PARTICLES` constant, src/simulation.rs line 7. -/
def NUM_PARTICLES : ℕ := 131072

/-- `WORKGROUP_SIZE` constant, src/simulation.rs line 8. -/
def WORKGROUP_SIZE : ℕ := 64

/-- The params record built in `Simulation::new` (src/simulation.rs lines
59-64): `dt = 0.016`, `gm = 40000.0`, `particle_count = NUM_PARTICLES`. -/
def SimulationParams.initial : SimulationParams :=
  { dt := 16/1000, gm := 40000, particle_count := NUM_PARTICLES }

namespace Simulation

/-- `Simulation::update` (src/simulation.rs lines 325-328): sets
`params.dt = dt.min(0.033)` and queues a write of the whole params record;
the host-side mirror is the returned record. -/
def update (p : SimulationParams) (dt : ℚ) : SimulationParams :=
  { p with dt := min dt (33/1000) }

end Simulation

/-- `Camera` from src/camera.rs lines 3-8.  The position vector is split
into its three components; `aspect` is the aspect-ratio field. -/
structure Camera where
  posX : ℚ
  posY : ℚ
  posZ : ℚ
  scale : ℚ
  aspect : ℚ
  is_3d : Bool
deriving DecidableEq, Repr

/-- Rust `f32::clamp(lo, hi)` on the rational model: `min (max x lo) hi`. -/
def rclamp (x lo hi : ℚ) : ℚ := min (max x lo) hi

namespace Camera

/-- `Camera::new` (src/camera.rs lines 11-18). -/
def new : Camera :=
  { posX := 0, posY := 0, posZ := 800, scale := 1, aspect := 1, is_3d := false }

/-- `Camera::set_aspect_ratio` (src/camera.rs lines 20-22). -/
def setAspect (c : Camera) (a : ℚ) : Camera := { c with aspect := a }

/-- `Camera::pan` (src/camera.rs lines 24-29). -/
def pan (c : Camera) (dx dy : ℚ) : Camera :=
  let pan_scale := 1 / c.scale
  { c with posX := c.posX - dx * pan_scale, posY := c.posY + dy * pan_scale }

/-- `Camera::zoom` (src/camera.rs lines 31-38): multiply `scale` by
`1 + delta * 0.001`, then clamp into `[0.01, 10.0]`. -/
def zoom (c : Camera) (delta : ℚ) : Camera :=
  let zoom_factor := 1 + delta * (1/1000)
  let s := c.scale * zoom_factor
  { c with scale := rclamp s (1/100) 10 }

/-- `Camera::reset` (src/camera.rs lines 40-43): restores position and
scale only; the aspect-ratio and mode fields are not touched. -/
def reset (c : Camera) : Camera :=
  { c with posX := 0, posY := 0, posZ := 800, scale := 1 }

end Camera

/-- C1: `Simulation.update` stores `dt.min(0.033)` as the timestep, which is
always at most `1/30`; `dt = 1.0` stores exactly `0.033`; `gm` and
`particle_count` are left unchanged, so they keep their construction-time
values `40000` and `131072`. -/
theorem simulation_update_clamps_dt (p : SimulationParams) (dt : ℚ) :
    (Simulation.update p dt).dt = min dt (33/1000) ∧
    (Simulation.update p dt).dt ≤ 1/30 ∧
    (Simulation.update p dt).gm = p.gm ∧
    (Simulation.update p dt).particle_count = p.particle_count ∧
    (Simulation.update SimulationParams.initial dt).gm = 40000 ∧
    (Simulation.update SimulationParams.initial dt).particle_count = 131072 ∧
    (Simulation.update p 1).dt = 33/1000 := by
  refine ⟨rfl, ?_, rfl, rfl, rfl, rfl, ?_⟩
  · exact le_trans (min_le_right _ _) (by norm_num)
  · norm_num [Simulation.update]

/-- C2: from any camera whose scale is in `[0.01, 10]`, `zoom` keeps the
scale in `[0.01, 10]` (in fact the clamp makes this hold from any state),
and a single `zoom (-1000)` from the default camera lands exactly on the
minimum `0.01`. -/
theorem camera_zoom_scale_bounds (c : Camera) (delta : ℚ)
    (hlo : 1/100 ≤ c.scale) (hhi : c.scale ≤ 10) :
    1/100 ≤ (c.zoom delta).scale ∧ (c.zoom delta).scale ≤ 10 ∧
    (Camera.new.zoom (-1000)).scale = 1/100 := by
  refine ⟨?_, ?_, ?_⟩
  · exact le_min (le_max_right _ _) (by norm_num)
  · exact min_le_right _ _
  · norm_num [Camera.zoom, Camera.new, rclamp]

/-- Witness for C2 at the default camera and `delta = 5`. -/
theorem camera_zoom_scale_bounds_witness :
    1/100 ≤ (Camera.new.zoom 5).scale ∧ (Camera.new.zoom 5).scale ≤ 10 := by
  have h := camera_zoom_scale_bounds Camera.new 5 (by norm_num [Camera.new])
    (by norm_num [Camera.new])
  exact ⟨h.1, h.2.1⟩

/-- Modelled from the spec: `Camera::rotate` and the rotation fields are
absent from the code under src/ (src/input.rs line 252 calls
`camera.rotate`, but src/camera.rs declares neither the method nor the
fields), so the rotation state is taken from spec sections 3 and 4.3:
`rotation_x`, `rotation_y` floats. -/
structure CameraRot where
  rotation_x : ℚ
  rotation_y : ℚ
deriving DecidableEq, Repr

namespace CameraRot

/-- Modelled from the spec: `rotate(dx, dy)` per spec section 4.3 —
`rotation_y += dx`, `rotation_x += dy`, then clamp `rotation_x` into
`[-1.5, 1.5]`; `rotation_y` is unclamped. -/
def rotate (r : CameraRot) (dx dy : ℚ) : CameraRot :=
  { rotation_x := rclamp (r.rotation_x + dy) (-(3/2)) (3/2),
    rotation_y := r.rotation_y + dx }

/-- Fold a finite sequence of `rotate` calls over a rotation state. -/
def rotateAll (r : CameraRot) (l : List (ℚ × ℚ)) : CameraRot :=
  l.foldl (fun a p => a.rotate p.1 p.2) r

end CameraRot

/-- After one `rotate`, `rotation_x` is inside `[-3/2, 3/2]`. -/
theorem rotate_rotation_x_mem (r : CameraRot) (dx dy : ℚ) :
    -(3/2) ≤ (r.rotate dx dy).rotation_x ∧ (r.rotate dx dy).rotation_x ≤ 3/2 :=
  ⟨le_min (le_max_right _ _) (by norm_num), min_le_right _ _⟩

/-- C4: for any starting rotation state whose `rotation_x` is within
`[-1.5, 1.5]` and any finite sequence of `rotate` calls, `rotation_x`
stays within `[-1.5, 1.5]`, while each `rotate` adds `dx` to
`rotation_y` with no clamp. -/
theorem camera_rotate_pitch_clamped (r : CameraRot) (l : List (ℚ × ℚ))
    (hlo : -(3/2) ≤ r.rotation_x) (hhi : r.rotation_x ≤ 3/2) :
    (-(3/2) ≤ (r.rotateAll l).rotation_x ∧ (r.rotateAll l).rotation_x ≤ 3/2) ∧
    (∀ dx dy : ℚ, (r.rotate dx dy).rotation_y = r.rotation_y + dx) := by
  refine ⟨?_, fun dx dy => rfl⟩
  induction l generalizing r with
  | nil => exact ⟨hlo, hhi⟩
  | cons p tl ih =>
      have h := rotate_rotation_x_mem r p.1 p.2
      exact ih (r.rotate p.1 p.2) h.1 h.2

/-- Witness for C4 at the zero rotation state and a two-step sequence. -/
theorem camera_rotate_pitch_clamped_witness :
    (-(3/2) ≤ ((CameraRot.mk 0 0).rotateAll [(1, 2), (3, -9)]).rotation_x ∧
      ((CameraRot.mk 0 0).rotateAll [(1, 2), (3, -9)]).rotation_x ≤ 3/2) ∧
    (∀ dx dy : ℚ,
      ((CameraRot.mk 0 0).rotate dx dy).rotation_y = (CameraRot.mk 0 0).rotation_y + dx) :=
  camera_rotate_pitch_clamped (CameraRot.mk 0 0) [(1, 2), (3, -9)]
    (by norm_num) (by norm_num)

/-- The camera mutations named by claim C5 short of the aspect-ratio
setter: `pan`, `zoom`, `reset` (src/camera.rs). -/
inductive CamOp where
  | pan (dx dy : ℚ)
  | zoom (delta : ℚ)
  | reset
deriving DecidableEq, Repr

/-- Apply one `CamOp` to a camera. -/
def CamOp.apply (c : Camera) : CamOp → Camera
  | .pan dx dy => c.pan dx dy
  | .zoom d => c.zoom d
  | .reset => c.reset

/-- Apply a sequence of `CamOp`s, first element first. -/
def CamOp.applyAll (c : Camera) (l : List CamOp) : Camera :=
  l.foldl CamOp.apply c

/-- Counterexample to C5 as stated: `set_aspect_ratio 2` then `reset` does
not return the camera to the freshly-constructed state, because `reset`
restores only position and scale, never the aspect-ratio field. -/
theorem camera_reset_after_aspect_not_new :
    ((Camera.new.setAspect 2).reset ≠ Camera.new) ∧
    ((Camera.new.setAspect 2).reset).aspect = 2 ∧ Camera.new.aspect = 1 := by
  refine ⟨?_, rfl, rfl⟩
  intro h
  have := congrArg Camera.aspect h
  norm_num [Camera.new, Camera.setAspect, Camera.reset] at this

/-- `pan`, `zoom` and `reset` never touch the aspect-ratio or mode field. -/
theorem camOp_apply_aspect_is3d (c : Camera) (op : CamOp) :
    (op.apply c).aspect = c.aspect ∧ (op.apply c).is_3d = c.is_3d := by
  cases op <;> exact ⟨rfl, rfl⟩

/-- C5 amended: for every camera reachable from `Camera.new` by `pan`,
`zoom` and prior `reset` calls (the operations that do not touch the
aspect-ratio field), a final `reset` yields exactly the freshly
constructed `Camera.new`. -/
theorem camera_reset_reachable_eq_new (l : List CamOp) :
    ((CamOp.applyAll Camera.new l).reset) = Camera.new := by
  suffices h : ∀ c : Camera, c.aspect = 1 → c.is_3d = false →
      (CamOp.applyAll c l).reset = Camera.new by
    exact h Camera.new rfl rfl
  induction l with
  | nil =>
      intro c ha hm
      simp [CamOp.applyAll, Camera.reset, Camera.new, ha, hm]
  | cons op tl ih =>
      intro c ha hm
      have hop := camOp_apply_aspect_is3d c op
      exact ih (op.apply c) (hop.1.trans ha) (hop.2.trans hm)

/-- GPU commands recorded on the frame's command encoder, as used by
`AppState::render` (src/lib.rs) and the `Simulation` pass helpers
(src/simulation.rs). -/
inductive Cmd where
  | beginComputePass
  | setComputePipeline
  | setComputeBindGroup
  | dispatchWorkgroups (x y z : ℕ)
  | beginRenderPass
  | setRenderPipeline
  | setRenderBindGroup
  | draw (vertices instances : ℕ)
deriving DecidableEq, Repr

/-- `u32::div_ceil` on the model: ceiling division. -/
def divCeil (a b : ℕ) : ℕ := (a + b - 1) / b

namespace Simulation

/-- `Simulation::compute_pass` (src/simulation.rs lines 330-340): begins a
compute pass, binds the pipeline and bind group, dispatches
`NUM_PARTICLES.div_ceil(WORKGROUP_SIZE)` workgroups on one axis. -/
def compute_pass : List Cmd :=
  [Cmd.beginComputePass, Cmd.setComputePipeline, Cmd.setComputeBindGroup,
   Cmd.dispatchWorkgroups (divCeil NUM_PARTICLES WORKGROUP_SIZE) 1 1]

/-- `Simulation::render_pass` (src/simulation.rs lines 342-346): binds the
render pipeline and bind group, then draws vertex range `0..NUM_PARTICLES`
with instance range `0..1`. -/
def render_pass : List Cmd :=
  [Cmd.setRenderPipeline, Cmd.setRenderBindGroup, Cmd.draw NUM_PARTICLES 1]

end Simulation

/-- The command stream recorded by `AppState::render` (src/lib.rs lines
95-159): `Simulation::compute_pass` when not paused, then the render pass
(begun with its attachments) driving `Simulation::render_pass`. -/
def AppState.renderCmds (paused : Bool) : List Cmd :=
  (if paused then [] else Simulation.compute_pass) ++
    (Cmd.beginRenderPass :: Simulation.render_pass)

/-- Recognizer for draw commands. -/
def Cmd.isDraw : Cmd → Bool
  | .draw _ _ => true
  | _ => false

/-- Recognizer for compute-pass dispatch commands. -/
def Cmd.isDispatch : Cmd → Bool
  | .dispatchWorkgroups _ _ _ => true
  | _ => false

/-- C3: on every frame the recorded stream holds exactly one draw, of
`131072` vertices and one instance, whatever `paused` is; it holds a
compute dispatch exactly when `paused` is false; and when present, every
compute command precedes the start of the render pass. -/
theorem render_stream_draw_and_compute (paused : Bool) :
    (AppState.renderCmds paused).filter Cmd.isDraw = [Cmd.draw 131072 1] ∧
    ((AppState.renderCmds paused).filter Cmd.isDispatch ≠ [] ↔ paused = false) ∧
    (paused = false →
      (AppState.renderCmds paused).findIdx Cmd.isDispatch <
        (AppState.renderCmds paused).findIdx (· = Cmd.beginRenderPass)) := by
  cases paused <;>
    simp [AppState.renderCmds, Simulation.compute_pass, Simulation.render_pass,
      Cmd.isDraw, Cmd.isDispatch, NUM_PARTICLES, WORKGROUP_SIZE, divCeil,
      List.filter, List.findIdx, List.findIdx.go]

/-- Witness for C3 at `paused = false`, using the theorem's third
conjunct. -/
theorem render_stream_draw_and_compute_witness :
    (AppState.renderCmds false).filter Cmd.isDraw = [Cmd.draw 131072 1] ∧
    (AppState.renderCmds false).findIdx Cmd.isDispatch <
      (AppState.renderCmds false).findIdx (· = Cmd.beginRenderPass) :=
  ⟨(render_stream_draw_and_compute false).1,
   (render_stream_draw_and_compute false).2.2 rfl⟩

/-- C6: `Simulation::compute_pass` dispatches exactly
`div_ceil NUM_PARTICLES WORKGROUP_SIZE = 2048` workgroups along one axis,
and the same formula yields `256` for a particle count of `16384`. -/
theorem compute_pass_dispatch_count :
    Simulation.compute_pass =
      [Cmd.beginComputePass, Cmd.setComputePipeline, Cmd.setComputeBindGroup,
       Cmd.dispatchWorkgroups (divCeil NUM_PARTICLES WORKGROUP_SIZE) 1 1] ∧
    divCeil NUM_PARTICLES WORKGROUP_SIZE = 2048 ∧
    divCeil 16384 WORKGROUP_SIZE = 256 := by
  refine ⟨rfl, by norm_num [divCeil, NUM_PARTICLES, WORKGROUP_SIZE],
    by norm_num [divCeil, WORKGROUP_SIZE]⟩

/-- `InputState` from src/input.rs lines 7-18; the two position pairs are
split into components. -/
structure InputState where
  mouseX : ℚ
  mouseY : ℚ
  lastMouseX : ℚ
  lastMouseY : ℚ
  is_dragging : Bool
  is_rotating : Bool
  zoom_delta : ℚ
  pause_pressed : Bool
  reset_pressed : Bool
  touch_count : ℕ
  last_pinch_distance : ℚ
deriving DecidableEq, Repr

/-- `InputState::new` (src/input.rs lines 21-33). -/
def InputState.new : InputState :=
  { mouseX := 0, mouseY := 0, lastMouseX := 0, lastMouseY := 0,
    is_dragging := false, is_rotating := false, zoom_delta := 0,
    pause_pressed := false, reset_pressed := false, touch_count := 0,
    last_pinch_distance := 0 }

namespace InputHandler

/-- First block of `InputHandler::update_camera` (src/input.rs lines
247-255): when rotating and the pointer delta exceeds the 0.1 dead-zone,
rotate the camera by the scaled delta and consume the pointer position. -/
def stepRotate (s : InputState) (r : CameraRot) : InputState × CameraRot :=
  if s.is_rotating then
    let dx := s.mouseX - s.lastMouseX
    let dy := s.mouseY - s.lastMouseY
    if 1/10 < |dx| ∨ 1/10 < |dy| then
      ({ s with lastMouseX := s.mouseX, lastMouseY := s.mouseY },
        r.rotate (dx * (1/100)) (dy * (1/100)))
    else (s, r)
  else (s, r)

/-- Second block of `InputHandler::update_camera` (src/input.rs lines
257-265): when dragging past the dead-zone, pan and consume the pointer
position. -/
def stepDrag (s : InputState) (c : Camera) : InputState × Camera :=
  if s.is_dragging then
    let dx := s.mouseX - s.lastMouseX
    let dy := s.mouseY - s.lastMouseY
    if 1/10 < |dx| ∨ 1/10 < |dy| then
      ({ s with lastMouseX := s.mouseX, lastMouseY := s.mouseY }, c.pan dx dy)
    else (s, c)
  else (s, c)

/-- Third block of `InputHandler::update_camera` (src/input.rs lines
267-270): when `zoom_delta` exceeds the 0.1 dead-zone in magnitude, zoom
and zero the accumulator; otherwise leave it as it is. -/
def stepZoom (s : InputState) (c : Camera) : InputState × Camera :=
  if 1/10 < |s.zoom_delta| then ({ s with zoom_delta := 0 }, c.zoom s.zoom_delta)
  else (s, c)

/-- Fourth block of `InputHandler::update_camera` (src/input.rs lines
272-275): a pending reset flag resets the camera and is cleared. -/
def stepReset (s : InputState) (c : Camera) : InputState × Camera :=
  if s.reset_pressed then ({ s with reset_pressed := false }, c.reset)
  else (s, c)

/-- `InputHandler::update_camera` (src/input.rs lines 244-276): the four
blocks in source order, threading the input state through.  The rotation
state is the spec-modelled `CameraRot` (the `rotate` call at line 252 has
no target in src/camera.rs). -/
def update_camera (s : InputState) (c : Camera) (r : CameraRot) :
    InputState × Camera × CameraRot :=
  let a := stepRotate s r
  let b := stepDrag a.1 c
  let d := stepZoom b.1 b.2
  let e := stepReset d.1 d.2
  (e.1, e.2, a.2)

/-- `InputHandler::pause_toggled` (src/input.rs lines 278-287): report and
clear the edge-triggered pause flag. -/
def pause_toggled (s : InputState) : Bool × InputState :=
  if s.pause_pressed then (true, { s with pause_pressed := false })
  else (false, s)

end InputHandler

/-- The host-observable fields of `Graphics` (src/graphics.rs lines 4-10):
the surface configuration dimensions and the stored size. -/
structure Graphics where
  config_width : ℕ
  config_height : ℕ
  size_w : ℕ
  size_h : ℕ
deriving DecidableEq, Repr

/-- `Graphics::resize` (src/graphics.rs lines 83-91): both dimensions must
be strictly positive, otherwise nothing changes. -/
def Graphics.resize (g : Graphics) (new_width new_height : ℕ) : Graphics :=
  if 0 < new_width ∧ 0 < new_height then
    { config_width := new_width, config_height := new_height,
      size_w := new_width, size_h := new_height }
  else g

/-- `AppState` (src/lib.rs lines 30-37), with the rotation state of the
camera carried alongside (see `CameraRot`). -/
structure AppState where
  graphics : Graphics
  camera : Camera
  rot : CameraRot
  input : InputState
  params : SimulationParams
  paused : Bool
  last_time : ℚ
deriving DecidableEq, Repr

/-- The state `AppState::new` produces (src/lib.rs lines 40-57 and
src/graphics.rs line 49): default camera and input, initial params,
`paused = false`, `last_time = 0`, surface sized 1024 by 768. -/
def AppState.initial : AppState :=
  { graphics := { config_width := 1024, config_height := 768,
                  size_w := 1024, size_h := 768 },
    camera := Camera.new, rot := CameraRot.mk 0 0, input := InputState.new,
    params := SimulationParams.initial, paused := false, last_time := 0 }

/-- `AppState::update` (src/lib.rs lines 59-93): derive `dt` from the
timestamp, apply input to the camera, consume the pause edge, and when not
paused push the clamped timestep into the simulation params. -/
def AppState.update (st : AppState) (current_time : ℚ) : AppState :=
  let dt := if 0 < st.last_time then (current_time - st.last_time) / 1000
            else 16/1000
  let u := InputHandler.update_camera st.input st.camera st.rot
  let t := InputHandler.pause_toggled u.1
  let paused2 := if t.1 then !st.paused else st.paused
  let st2 := { st with last_time := current_time, input := t.2,
                       camera := u.2.1, rot := u.2.2, paused := paused2 }
  if paused2 then st2 else { st2 with params := Simulation.update st2.params dt }

/-- `AppState::resize` (src/lib.rs lines 161-164): forward to
`Graphics::resize` (which ignores zero dimensions) and always set the
camera aspect ratio to `width / height`.  The quotient is the model's
rational division; the f32 source computes `width as f32 / height as f32`
there. -/
def AppState.resize (st : AppState) (width height : ℕ) : AppState :=
  { st with graphics := st.graphics.resize width height,
            camera := st.camera.setAspect ((width : ℚ) / (height : ℚ)) }

/-- The rotate block never touches `zoom_delta`. -/
theorem stepRotate_zoom_delta (s : InputState) (r : CameraRot) :
    (InputHandler.stepRotate s r).1.zoom_delta = s.zoom_delta := by
  unfold InputHandler.stepRotate
  dsimp only
  split_ifs <;> rfl

/-- The drag block never touches `zoom_delta`. -/
theorem stepDrag_zoom_delta (s : InputState) (c : Camera) :
    (InputHandler.stepDrag s c).1.zoom_delta = s.zoom_delta := by
  unfold InputHandler.stepDrag
  dsimp only
  split_ifs <;> rfl

/-- The zoom block zeroes `zoom_delta` exactly when it is past the
dead-zone. -/
theorem stepZoom_zoom_delta (s : InputState) (c : Camera) :
    (InputHandler.stepZoom s c).1.zoom_delta =
      if 1/10 < |s.zoom_delta| then 0 else s.zoom_delta := by
  unfold InputHandler.stepZoom
  split_ifs <;> rfl

/-- The reset block never touches `zoom_delta`. -/
theorem stepReset_zoom_delta (s : InputState) (c : Camera) :
    (InputHandler.stepReset s c).1.zoom_delta = s.zoom_delta := by
  unfold InputHandler.stepReset
  split_ifs <;> rfl

/-- None of the four blocks of `update_camera` touches `pause_pressed`. -/
theorem update_camera_pause_pressed (s : InputState) (c : Camera)
    (r : CameraRot) :
    (InputHandler.update_camera s c r).1.pause_pressed = s.pause_pressed := by
  unfold InputHandler.update_camera InputHandler.stepRotate
    InputHandler.stepDrag InputHandler.stepZoom InputHandler.stepReset
  dsimp only
  split_ifs <;> rfl

/-- Counterexample to C7 as stated: an accumulated `zoom_delta = 0.05`
is below the 0.1 dead-zone, so `update_camera` leaves it untouched and it
is not zero afterwards. -/
theorem update_camera_small_zoom_delta_survives :
    (InputHandler.update_camera { InputState.new with zoom_delta := 1/20 }
        Camera.new (CameraRot.mk 0 0)).1.zoom_delta = 1/20 ∧
    (1/20 : ℚ) ≠ 0 := by
  constructor
  · unfold InputHandler.update_camera
    dsimp only
    rw [stepReset_zoom_delta, stepZoom_zoom_delta, stepDrag_zoom_delta,
      stepRotate_zoom_delta,
      show ({ InputState.new with zoom_delta := 1/20 } : InputState).zoom_delta
        = 1/20 from rfl,
      abs_of_pos (show (0:ℚ) < 1/20 by norm_num),
      if_neg (show ¬ (1/10:ℚ) < 1/20 by norm_num)]
  · norm_num

/-- C7 amended: after `update_camera`, `zoom_delta` is zero exactly when
its magnitude exceeded the `0.1` dead-zone, and is left unchanged (and
still at most `0.1` in magnitude) otherwise; in every case the returned
magnitude is at most `0.1`. -/
theorem update_camera_zoom_delta_deadzone (s : InputState) (c : Camera)
    (r : CameraRot) :
    (InputHandler.update_camera s c r).1.zoom_delta =
      (if 1/10 < |s.zoom_delta| then 0 else s.zoom_delta) ∧
    |(InputHandler.update_camera s c r).1.zoom_delta| ≤ 1/10 ∧
    (1/10 < |s.zoom_delta| →
      (InputHandler.update_camera s c r).1.zoom_delta = 0) := by
  have hmain : (InputHandler.update_camera s c r).1.zoom_delta =
      (if 1/10 < |s.zoom_delta| then 0 else s.zoom_delta) := by
    unfold InputHandler.update_camera
    dsimp only
    rw [stepReset_zoom_delta, stepZoom_zoom_delta, stepDrag_zoom_delta,
      stepRotate_zoom_delta]
  refine ⟨hmain, ?_, fun h => by rw [hmain, if_pos h]⟩
  rw [hmain]
  split_ifs with h
  · norm_num
  · exact le_of_not_lt h

/-- Witness for C7 (amended) at a state whose accumulated zoom is `3`. -/
theorem update_camera_zoom_delta_deadzone_witness :
    (InputHandler.update_camera { InputState.new with zoom_delta := 3 }
        Camera.new (CameraRot.mk 0 0)).1.zoom_delta = 0 :=
  (update_camera_zoom_delta_deadzone { InputState.new with zoom_delta := 3 }
    Camera.new (CameraRot.mk 0 0)).2.2 (by norm_num [InputState.new])

/-- `pause_toggled` reports the stored flag. -/
theorem pause_toggled_fst (s : InputState) :
    (InputHandler.pause_toggled s).1 = s.pause_pressed := by
  unfold InputHandler.pause_toggled
  split_ifs with h <;> simp [h]

/-- `pause_toggled` clears the flag in the state it returns. -/
theorem pause_toggled_clears (s : InputState) :
    (InputHandler.pause_toggled s).2.pause_pressed = false := by
  unfold InputHandler.pause_toggled
  split_ifs with h <;> simp [h]

/-- C8: `pause_toggled` returns exactly the stored `pause_pressed` flag
and clears it, so a second call with no intervening press returns
`false`; and `AppState.update` inverts `paused` exactly when the incoming
input state carries the flag. -/
theorem pause_edge_toggle (s : InputState) (st : AppState) (t : ℚ) :
    (InputHandler.pause_toggled s).1 = s.pause_pressed ∧
    (InputHandler.pause_toggled s).2.pause_pressed = false ∧
    (InputHandler.pause_toggled (InputHandler.pause_toggled s).2).1 = false ∧
    (AppState.update st t).paused =
      (if st.input.pause_pressed then !st.paused else st.paused) := by
  refine ⟨pause_toggled_fst s, pause_toggled_clears s, ?_, ?_⟩
  · rw [pause_toggled_fst, pause_toggled_clears]
  · unfold AppState.update
    dsimp only
    simp only [pause_toggled_fst, update_camera_pause_pressed]
    split_ifs <;> rfl

/-- `Particle` from src/simulation.rs lines 10-15, with the two arrays of
three floats split into components. -/
structure Particle where
  px : ℚ
  py : ℚ
  pz : ℚ
  vx : ℚ
  vy : ℚ
  vz : ℚ
deriving DecidableEq, Repr

/-- One close star of `Simulation::generate_initial_particles`
(src/simulation.rs lines 280-299), given the three sampled values
(radius, theta, phi) and the trigonometric and square-root primitives. -/
def closeStar (fcos fsin fsqrt : ℚ → ℚ) (radius theta phi : ℚ) : Particle :=
  let x := radius * fcos theta * fcos phi
  let y := radius * fsin phi * (3/10)
  let z := radius * fsin theta * fcos phi
  let speed := fsqrt (40000 / radius) * (8/10)
  { px := x, py := y, pz := z,
    vx := -(fsin theta) * speed, vy := 0, vz := fcos theta * speed }

/-- One stream particle of `Simulation::generate_initial_particles`
(src/simulation.rs lines 302-314), given the sampled lateral offset `y`. -/
def streamParticle (y : ℚ) : Particle :=
  { px := 10, py := y, pz := 100, vx := 150, vy := 0, vz := 0 }

/-- `Simulation::generate_initial_particles` (src/simulation.rs lines
273-323).  The pseudo-random generator `StdRng::seed_from_u64(42)` and the
trigonometric and square-root f32 primitives are external library code;
they are modelled abstractly: `draw i` is the i-th value the seeded
generator returns across the `gen_range` calls (close star `i` consumes
draws `3*i`, `3*i+1`, `3*i+2` — radius in [20,80), theta in [0,TAU), phi
in [-0.5,0.5) — and stream particle `j` consumes draw `1500 + j`, the
lateral offset in [-150,150)), and `fcos`, `fsin`, `fsqrt` are the f32
cosine, sine and square root.  First the 500 close stars, then the
remaining `NUM_PARTICLES - 500` stream particles. -/
def generate_initial_particles (fcos fsin fsqrt : ℚ → ℚ) (draw : ℕ → ℚ) :
    List Particle :=
  (List.range 500).map
      (fun i => closeStar fcos fsin fsqrt
        (draw (3*i)) (draw (3*i+1)) (draw (3*i+2))) ++
    (List.range (NUM_PARTICLES - 500)).map
      (fun j => streamParticle (draw (1500 + j)))

/-- C9: the initial particle population is a pure function of the seeded
generator's draw stream — two runs whose generators produce the same
draws (as the fixed seed 42 guarantees for `StdRng`) yield element-wise
identical particle lists — and its length is exactly `131072`. -/
theorem generate_initial_particles_deterministic
    (fcos fsin fsqrt : ℚ → ℚ) (d d' : ℕ → ℚ) (hd : ∀ i, d i = d' i) :
    generate_initial_particles fcos fsin fsqrt d =
      generate_initial_particles fcos fsin fsqrt d' ∧
    (generate_initial_particles fcos fsin fsqrt d).length = 131072 := by
  have hdd : d = d' := funext hd
  subst hdd
  refine ⟨rfl, ?_⟩
  simp [generate_initial_particles, NUM_PARTICLES]

/-- Witness for C9 with identical constant draw streams. -/
theorem generate_initial_particles_deterministic_witness :
    generate_initial_particles id id id (fun _ => 1) =
      generate_initial_particles id id id (fun _ => 1) ∧
    (generate_initial_particles id id id (fun _ => 1)).length = 131072 :=
  generate_initial_particles_deterministic id id id
    (fun _ => 1) (fun _ => 1) (fun _ => rfl)

/-- C10: resizing with a zero dimension leaves the surface configuration
and stored size unchanged while the camera aspect ratio is still set to
`width / height`; with strictly positive dimensions both the surface
dimensions and the aspect ratio take the new values; and no camera field
other than the aspect ratio ever changes. -/
theorem appstate_resize_spec (st : AppState) (width height : ℕ) :
    ((width = 0 ∨ height = 0) →
      (st.resize width height).graphics = st.graphics) ∧
    (st.resize width height).camera.aspect = (width : ℚ) / (height : ℚ) ∧
    (0 < width → 0 < height →
      (st.resize width height).graphics =
        { config_width := width, config_height := height,
          size_w := width, size_h := height }) ∧
    (st.resize width height).camera.scale = st.camera.scale ∧
    (st.resize width height).camera.posX = st.camera.posX ∧
    (st.resize width height).camera.posY = st.camera.posY ∧
    (st.resize width height).camera.posZ = st.camera.posZ ∧
    (st.resize width height).camera.is_3d = st.camera.is_3d := by
  refine ⟨?_, rfl, ?_, rfl, rfl, rfl, rfl, rfl⟩
  · intro hz
    have hne : ¬(0 < width ∧ 0 < height) := by
      rcases hz with hz | hz <;> simp [hz]
    simp [AppState.resize, Graphics.resize, hne]
  · intro hw hh
    simp [AppState.resize, Graphics.resize, hw, hh]

/-- Witness for C10 at the initial state, one degenerate and one proper
resize. -/
theorem appstate_resize_spec_witness :
    (AppState.initial.resize 0 5).graphics = AppState.initial.graphics ∧
    (AppState.initial.resize 4 3).graphics =
      { config_width := 4, config_height := 3, size_w := 4, size_h := 3 } :=
  ⟨(appstate_resize_spec AppState.initial 0 5).1 (Or.inl rfl),
   (appstate_resize_spec AppState.initial 4 3).2.2.1
     (by norm_num) (by norm_num)⟩
